import Mathlib

/-!
# Model-evaluation and convnet notebooks: a shallow embedding

This file embeds the data-splitting pseudocode of the notebook
`5_2_model_evaluation.ipynb` (hold-out validation, K-fold validation,
iterated K-fold validation) and the layer-shape / parameter-count
arithmetic of `5_1_convnet_introduction.ipynb` (and its functional-API
variant) as executable Lean definitions, and proves the documented
properties about them.

Datasets are modelled as Lean lists; a NumPy slice `data[a:b]` is
`(data.drop a).take (b - a)`, `data[:n]` is `data.take n` and `data[n:]`
is `data.drop n`.  Statements "about sample positions" are stated on the
canonical dataset `List.range D`, whose element at position `p` is `p`
itself.
-/

namespace DLWP

/-- NumPy slice `data[a:b]`: the elements at positions `a ≤ p < b`. -/
def pySlice (data : List α) (a b : Nat) : List α :=
  (data.drop a).take (b - a)

/-! ## Hold-out validation (notebook 5.2, cell `4f039983`)

```python
validation_data = data[:num_validation_samples]
data = data[num_validation_samples:]
training_data = data[:]
```
The split is applied to the already-shuffled dataset; it returns the pair
`(validation_data, training_data)`. -/

/-- The hold-out split of cell `4f039983`: first `n` samples become the
validation set, the rest the training set. -/
def holdOutSplit (n : Nat) (data : List α) : List α × List α :=
  (data.take n, data.drop n)

/-- `np.random.shuffle(data)` realises some permutation of positions; a
run's outcome is captured by the list `p` of source positions it places
the samples at.  `shuffleBy p data` reads the samples at those positions. -/
def shuffleBy [Inhabited α] (p : List Nat) (data : List α) : List α :=
  p.map (fun i => data.getD i default)

/-! ## K-fold validation (notebook 5.2, cell `15ea261f`)

```python
num_validation_samples = len(data) // k
for fold in range(k):
    validation_data = data[num_validation_samples * fold:
                          num_validation_samples * (fold + 1)]
    training_data = np.concatenate(data[:num_validation_samples * fold],
                                   data[num_validation_samples * (fold + 1):])
```
-/

/-- Fold `i`'s validation partition:
`data[(D//k)*i : (D//k)*(i+1)]`. -/
def foldValidation (data : List α) (k i : Nat) : List α :=
  pySlice data (data.length / k * i) (data.length / k * (i + 1))

/-- Fold `i`'s training partition: `data[:(D//k)*i]` concatenated with
`data[(D//k)*(i+1):]`. -/
def foldTraining (data : List α) (k i : Nat) : List α :=
  data.take (data.length / k * i) ++ data.drop (data.length / k * (i + 1))

/-- The `k` validation blocks of one K-fold pass, concatenated in fold
order. -/
def kfoldValidationBlocks (data : List α) (k : Nat) : List α :=
  ((List.range k).map (foldValidation data k)).flatten

/-- One K-fold pass records, for each fold, the score of training a fresh
model on the fold's training partition and evaluating it on the fold's
validation partition; `trainEval` is one such train-then-evaluate run. -/
def kfoldScores (trainEval : List α → List α → β) (k : Nat)
    (data : List α) : List β :=
  (List.range k).map (fun i => trainEval (foldTraining data k i) (foldValidation data k i))

/-- Iterated K-fold validation: the K-fold scoring pass is repeated once
per reshuffled copy of the dataset (one element of `shuffledDatasets` per
iteration), and all fold scores are collected. -/
def iteratedKFoldScores (trainEval : List α → List α → β) (k : Nat)
    (shuffledDatasets : List (List α)) : List β :=
  (shuffledDatasets.map (kfoldScores trainEval k)).flatten

/-! ## Workflow state and the training / evaluation calls

The notebooks call `model.train(...)`, `model.evaluate(...)` and
`model.evaluation(...)` on an opaque framework model.  The framework
routines themselves are not part of this repository, so they are modelled
from the spec: the Model is "an opaque, stateful function … its internal
parameters are mutated only by the training call". -/

/-- The opaque model: a bag of internal parameters. -/
structure Model where
  params : List Int
deriving DecidableEq

/-- The state the evaluation-protocol cells act on. -/
structure WorkflowState (α β : Type) where
  model : Model
  trainingData : List α
  validationData : List α
  scores : List β

/-- The two framework calls the workflow makes on a model. -/
inductive WorkflowCall where
  | train
  | eval
deriving DecidableEq

/-- Modelled from the spec: `model.train(...)`.  The framework's
parameter update rule (backpropagation, optimisation) is not in this
repository; it is an arbitrary function `upd` of the current parameters
and the training data, and the call replaces the parameters with its
result. -/
def trainModel (upd : List Int → List α → List Int) (m : Model)
    (d : List α) : Model :=
  ⟨upd m.params d⟩

/-- Modelled from the spec: `model.evaluate(...)` / `model.evaluation(...)`
computes a Score — "a scalar or pair of scalars produced by evaluation" —
from the model's parameters and the supplied data; the framework routine
is not in this repository. -/
def evaluateModel (ev : List Int → List α → β) (m : Model)
    (d : List α) : β :=
  ev m.params d

/-- One workflow step: a training call updates the model from the
training data; an evaluation call records the score of the model on the
validation data. -/
def runCall (upd : List Int → List α → List Int)
    (ev : List Int → List α → β) :
    WorkflowCall → WorkflowState α β → WorkflowState α β
  | .train, s => { s with model := trainModel upd s.model s.trainingData }
  | .eval, s =>
      { s with scores := s.scores ++ [evaluateModel ev s.model s.validationData] }

/-! ## Layer-shape and parameter arithmetic (notebook 5.1)

The sequential convnet of cells `4545d540` / `7c1b82dc`:
```python
model.add(layers.Conv2D(32, (3, 3), activation='relu', input_shape=(28,28,1)))
model.add(layers.MaxPooling2D((2, 2)))
model.add(layers.Conv2D(64, (3, 3), activation='relu'))
model.add(layers.MaxPooling2D((2, 2)))
model.add(layers.Conv2D(64, (3, 3), activation='relu'))
model.add(layers.Flatten())
model.add(layers.Dense(64, activation='relu'))
model.add(layers.Dense(10, activation='softmax'))
```
and the functional-API variant of the unnamed notebook, which replaces
the last Conv2D's 64 filters by 128 and feeds `Flatten` straight into
`Dense(10)`. -/

/-- A layer specification as written in the notebooks. -/
inductive Layer where
  | conv2d (filters kernelSize : Nat)
  | maxPooling2d (poolSize : Nat)
  | flatten
  | dense (units : Nat)
deriving DecidableEq

/-- The shape of the tensor flowing between layers: a `h × w × c`
feature map, or a flat vector of `n` units. -/
inductive Shape where
  | spatial (h w c : Nat)
  | vec (n : Nat)
deriving DecidableEq

/-- Modelled from the spec: an unpadded ("valid") convolution's output
spatial extent is the number of placements of a `k`-wide window inside
`s` cells, `s + 1 - k`. -/
def convOut (s k : Nat) : Nat := s + 1 - k

/-- Modelled from the spec: pooling with window `w` floor-divides the
spatial extent. -/
def poolOut (s w : Nat) : Nat := s / w

/-- Output shape of one layer. -/
def applyLayer : Shape → Layer → Shape
  | .spatial h w c, .conv2d f k => .spatial (convOut h k) (convOut w k) f
  | .spatial h w c, .maxPooling2d p => .spatial (poolOut h p) (poolOut w p) c
  | .spatial h w c, .flatten => .vec (h * w * c)
  | .spatial h w _, .dense u => .spatial h w u
  | .vec n, .conv2d _ _ => .vec n
  | .vec n, .maxPooling2d _ => .vec n
  | .vec n, .flatten => .vec n
  | .vec _, .dense u => .vec u

/-- The successive shapes of the pipeline: the input shape followed by
the output shape of each layer, as in the printed `model.summary()`
table. -/
def shapesThrough (init : Shape) (ls : List Layer) : List Shape :=
  ls.scanl applyLayer init

/-- Modelled from the spec: the trainable-parameter count of a layer
given its input shape — a Conv2D with `f` filters and a `k × k` kernel
over `c` input channels has `(k*k*c + 1) * f` weights (kernel plus one
bias per filter); a Dense layer with `u` units over an `n`-vector has
`n*u + u`; pooling and flatten are parameterless. -/
def layerParams : Shape → Layer → Nat
  | .spatial _ _ c, .conv2d f k => (k * k * c + 1) * f
  | .vec n, .dense u => n * u + u
  | _, _ => 0

/-- The per-layer parameter counts of a pipeline, in layer order. -/
def paramCounts (init : Shape) (ls : List Layer) : List Nat :=
  ((ls.scanl applyLayer init).zip ls).map (fun p => layerParams p.1 p.2)

/-- The `Total params` line of `model.summary()`. -/
def totalParams (init : Shape) (ls : List Layer) : Nat :=
  (paramCounts init ls).sum

/-- The sequential convnet with classifier head (notebook 5.1). -/
def convnet : List Layer :=
  [.conv2d 32 3, .maxPooling2d 2, .conv2d 64 3, .maxPooling2d 2, .conv2d 64 3,
   .flatten, .dense 64, .dense 10]

/-- The functional-API convnet of the unnamed notebook. -/
def convnetFunctional : List Layer :=
  [.conv2d 32 3, .maxPooling2d 2, .conv2d 64 3, .maxPooling2d 2, .conv2d 128 3,
   .flatten, .dense 10]

/-- Corroboration of the parameter model against the *other* printed
summary: the functional-API variant's counts (320, 18496, 73856, 11530)
and total 104,202 from its `model.summary()` output. -/
lemma convnetFunctional_params :
    paramCounts (.spatial 28 28 1) convnetFunctional =
      [320, 0, 18496, 0, 73856, 0, 11530] ∧
    totalParams (.spatial 28 28 1) convnetFunctional = 104202 := by
  exact ⟨rfl, rfl⟩

/-! ### Helper lemmas about slices of `List.range` -/

/-- Positions occurring in a dropped prefix of `List.range n`. -/
lemma mem_drop_range {n m p : Nat} :
    p ∈ (List.range n).drop m ↔ m ≤ p ∧ p < n := by
  rw [List.mem_iff_getElem]
  constructor
  · rintro ⟨i, hi, rfl⟩
    rw [List.getElem_drop, List.getElem_range]
    · simp only [List.length_drop, List.length_range] at hi
      omega
  · rintro ⟨h1, h2⟩
    refine ⟨p - m, ?_, ?_⟩
    · simp only [List.length_drop, List.length_range]; omega
    · rw [List.getElem_drop, List.getElem_range]; omega

/-- Positions occurring in a taken prefix of `List.range n`. -/
lemma mem_take_range {n m p : Nat} :
    p ∈ (List.range n).take m ↔ p < m ∧ p < n := by
  rw [List.take_range, List.mem_range]
  omega

/-! ## Claim theorems -/

/-- **C2.** For every dataset of size `D` and validation count `n ≤ D`,
the hold-out split yields `len(validation_data) = n` and
`len(training_data) = D - n`, and (on the canonical dataset of sample
positions) the validation and training sets are disjoint. -/
theorem holdout_sizes_and_disjoint (n : Nat) (data : List α)
    (h : n ≤ data.length) :
    (holdOutSplit n data).1.length = n ∧
    (holdOutSplit n data).2.length = data.length - n ∧
    ∀ p, p ∈ (holdOutSplit n (List.range data.length)).1 →
      p ∉ (holdOutSplit n (List.range data.length)).2 := by
  refine ⟨?_, ?_, ?_⟩
  · simp [holdOutSplit, List.length_take]; omega
  · simp [holdOutSplit]
  · intro p hv ht
    rw [holdOutSplit] at hv ht
    rw [mem_take_range] at hv
    rw [mem_drop_range] at ht
    omega

/-- Witness for `holdout_sizes_and_disjoint` at `n = 2`,
`data = [10, 20, 30, 40, 50]`. -/
theorem holdout_sizes_and_disjoint_witness :
    (2 ≤ ([10, 20, 30, 40, 50] : List Nat).length) ∧
    ((holdOutSplit 2 ([10, 20, 30, 40, 50] : List Nat)).1.length = 2 ∧
     (holdOutSplit 2 ([10, 20, 30, 40, 50] : List Nat)).2.length =
       ([10, 20, 30, 40, 50] : List Nat).length - 2 ∧
     ∀ p, p ∈ (holdOutSplit 2 (List.range ([10, 20, 30, 40, 50] : List Nat).length)).1 →
       p ∉ (holdOutSplit 2 (List.range ([10, 20, 30, 40, 50] : List Nat).length)).2) :=
  ⟨by decide, holdout_sizes_and_disjoint 2 [10, 20, 30, 40, 50] (by decide)⟩

/-- **C9.** The final retraining set
`np.concatenate([training_data, validation_data])` of the hold-out cell
is, as a multiset, exactly the shuffled dataset: the split followed by
re-concatenation loses no sample and duplicates none. -/
theorem holdout_retrain_set_perm (n : Nat) (data : List α) :
    ((holdOutSplit n data).2 ++ (holdOutSplit n data).1).Perm data := by
  rw [holdOutSplit]
  exact List.perm_append_comm.trans (by rw [List.take_append_drop])

/-- **C6.** The hold-out split is deterministic given the shuffle
outcome: two runs whose shuffles realise the same permutation of
positions produce identical validation and training sets. -/
theorem holdout_deterministic [Inhabited α] (n : Nat) (data : List α)
    (p₁ p₂ : List Nat) (h : p₁ = p₂) :
    holdOutSplit n (shuffleBy p₁ data) = holdOutSplit n (shuffleBy p₂ data) := by
  rw [h]

/-- Witness for `holdout_deterministic` with the permutation
`[2, 0, 1]` on `[7, 8, 9]`. -/
theorem holdout_deterministic_witness :
    holdOutSplit 1 (shuffleBy [2, 0, 1] ([7, 8, 9] : List Nat)) =
      holdOutSplit 1 (shuffleBy [2, 0, 1] ([7, 8, 9] : List Nat)) :=
  holdout_deterministic 1 [7, 8, 9] [2, 0, 1] [2, 0, 1] rfl

/-- Shared fact: fold `i`'s validation slice glued after `data[:s*i]`
is `data[:s*(i+1)]`. -/
lemma take_append_foldValidation (data : List α) (k i : Nat) :
    data.take (data.length / k * i) ++ foldValidation data k i =
      data.take (data.length / k * (i + 1)) := by
  rw [foldValidation, pySlice,
    ← List.take_add data (data.length / k * i)
      (data.length / k * (i + 1) - data.length / k * i)]
  congr 1
  have h3 : data.length / k * (i + 1) = data.length / k * i + data.length / k :=
    Nat.mul_succ ..
  generalize data.length / k = s at h3 ⊢
  omega

/-- **C1.** For `1 ≤ k ≤ D` and fold `i < k`, the validation partition
`data[(D//k)*i : (D//k)*(i+1)]` has size exactly `D // k`, and fold `i`'s
training partition together with its validation partition is a
permutation of the whole dataset (so their union, as sample positions, is
the whole dataset). -/
theorem kfold_fold_partition (data : List α) (k i : Nat)
    (hk : 1 ≤ k) (hkD : k ≤ data.length) (hi : i < k) :
    (foldValidation data k i).length = data.length / k ∧
    (foldTraining data k i ++ foldValidation data k i).Perm data := by
  have h1 : data.length / k * (i + 1) ≤ data.length / k * k :=
    Nat.mul_le_mul_left _ hi
  have h2 : data.length / k * k ≤ data.length := Nat.div_mul_le_self ..
  have h3 : data.length / k * (i + 1) = data.length / k * i + data.length / k :=
    Nat.mul_succ ..
  constructor
  · simp only [foldValidation, pySlice, List.length_take, List.length_drop]
    generalize data.length / k = s at h1 h2 h3 ⊢
    omega
  · have e1 : foldTraining data k i ++ foldValidation data k i =
        data.take (data.length / k * i) ++
          (data.drop (data.length / k * (i + 1)) ++ foldValidation data k i) := by
      rw [foldTraining, List.append_assoc]
    rw [e1]
    have p1 : (data.drop (data.length / k * (i + 1)) ++ foldValidation data k i).Perm
        (foldValidation data k i ++ data.drop (data.length / k * (i + 1))) :=
      List.perm_append_comm
    have e2 : data.take (data.length / k * i) ++
        (foldValidation data k i ++ data.drop (data.length / k * (i + 1))) = data := by
      rw [← List.append_assoc, take_append_foldValidation, List.take_append_drop]
    exact (p1.append_left _).trans (by rw [e2])

/-- Witness for `kfold_fold_partition` at `data = [3, 1, 4, 1, 5, 9, 2]`,
`k = 3`, `i = 1`. -/
theorem kfold_fold_partition_witness :
    (1 ≤ 3 ∧ 3 ≤ ([3, 1, 4, 1, 5, 9, 2] : List Nat).length ∧ 1 < 3) ∧
    ((foldValidation ([3, 1, 4, 1, 5, 9, 2] : List Nat) 3 1).length =
        ([3, 1, 4, 1, 5, 9, 2] : List Nat).length / 3 ∧
      (foldTraining ([3, 1, 4, 1, 5, 9, 2] : List Nat) 3 1 ++
        foldValidation ([3, 1, 4, 1, 5, 9, 2] : List Nat) 3 1).Perm
        [3, 1, 4, 1, 5, 9, 2]) :=
  ⟨by decide,
    kfold_fold_partition [3, 1, 4, 1, 5, 9, 2] 3 1 (by decide) (by decide) (by decide)⟩

/-- Shared fact: the concatenation of the first `n` validation blocks is
the prefix `data[: (D//k) * n]`. -/
lemma flatten_validation_blocks (data : List α) (k : Nat) :
    ∀ n, ((List.range n).map (foldValidation data k)).flatten =
      data.take (data.length / k * n) := by
  intro n
  induction n with
  | zero => simp
  | succ n ih =>
    rw [List.range_succ, List.map_append, List.flatten_append]
    simp only [List.map_cons, List.map_nil, List.flatten_cons, List.flatten_nil,
      List.append_nil]
    rw [ih, take_append_foldValidation]

/-- **C3 (counterexample).** With `D = 5`, `K = 2` (so `1 ≤ K ≤ D`) the
union of the two validation blocks does *not* reconstruct the dataset:
the sample at position 4 lies in no validation block. -/
theorem kfold_blocks_counterexample :
    1 ≤ 2 ∧ 2 ≤ (List.range 5).length ∧
    4 ∈ List.range 5 ∧ 4 ∉ kfoldValidationBlocks (List.range 5) 2 := by
  decide

/-- **C3 (amended).** The concatenation of the `K` validation blocks of
one K-fold pass equals the prefix `data[: (D//K)*K]` of the dataset — in
particular each of those samples appears exactly once — and it
reconstructs the full dataset exactly when `K` divides `D`. -/
theorem kfold_blocks_cover (data : List α) (k : Nat) :
    kfoldValidationBlocks data k = data.take (data.length / k * k) ∧
    (k ∣ data.length → kfoldValidationBlocks data k = data) := by
  have h : kfoldValidationBlocks data k = data.take (data.length / k * k) :=
    flatten_validation_blocks data k k
  refine ⟨h, fun hdvd => ?_⟩
  rw [h, Nat.div_mul_cancel hdvd, List.take_length]

/-- Witness for `kfold_blocks_cover` at `data = [5, 6, 7, 8]`, `k = 2`. -/
theorem kfold_blocks_cover_witness :
    (2 ∣ ([5, 6, 7, 8] : List Nat).length) ∧
    kfoldValidationBlocks ([5, 6, 7, 8] : List Nat) 2 = [5, 6, 7, 8] :=
  ⟨by decide, (kfold_blocks_cover [5, 6, 7, 8] 2).2 (by decide)⟩

/-- Shared fact: the positions occurring in fold `i`'s validation block
of the canonical dataset `List.range D`. -/
lemma mem_foldValidation_range {D k i p : Nat} :
    p ∈ foldValidation (List.range D) k i ↔
      D / k * i ≤ p ∧ p < D / k * (i + 1) ∧ p < D := by
  have h3 : D / k * (i + 1) = D / k * i + D / k := Nat.mul_succ ..
  rw [foldValidation, pySlice, List.length_range, List.take_drop,
    List.take_range, mem_drop_range]
  generalize D / k = s at h3 ⊢
  omega

/-- **C8.** When `D mod K ≠ 0`, every remainder position
`(D//K)*K ≤ p < D` of the shuffled dataset lies in the training partition
of every fold `i < K` and in no validation partition. -/
theorem kfold_remainder_in_every_training (D k i p : Nat)
    (hk : 1 ≤ k) (hkD : k ≤ D) (hi : i < k) (hrem : D % k ≠ 0)
    (hp1 : D / k * k ≤ p) (hp2 : p < D) :
    p ∈ foldTraining (List.range D) k i ∧
    p ∉ foldValidation (List.range D) k i := by
  have h1 : D / k * (i + 1) ≤ D / k * k := Nat.mul_le_mul_left _ hi
  constructor
  · rw [foldTraining, List.length_range, List.mem_append]
    right
    rw [mem_drop_range]
    generalize D / k * (i + 1) = b at h1
    generalize D / k * k = c at h1 hp1
    omega
  · rw [mem_foldValidation_range]
    generalize D / k * (i + 1) = b at h1
    generalize D / k * k = c at h1 hp1
    omega

/-- Witness for `kfold_remainder_in_every_training` at `D = 7`, `k = 3`,
`i = 1`, `p = 6`. -/
theorem kfold_remainder_in_every_training_witness :
    (1 ≤ 3 ∧ 3 ≤ 7 ∧ 1 < 3 ∧ 7 % 3 ≠ 0 ∧ 7 / 3 * 3 ≤ 6 ∧ 6 < 7) ∧
    (6 ∈ foldTraining (List.range 7) 3 1 ∧
      6 ∉ foldValidation (List.range 7) 3 1) :=
  ⟨by decide,
    kfold_remainder_in_every_training 7 3 1 6 (by decide) (by decide)
      (by decide) (by decide) (by decide) (by decide)⟩

/-- **C5.** Iterated K-fold validation with `P` iterations (one K-fold
pass per reshuffled dataset) performs exactly `P × K` train-and-evaluate
runs: one score per run is collected. -/
theorem iterated_kfold_run_count (trainEval : List α → List α → β)
    (k : Nat) (shuffledDatasets : List (List α)) :
    (iteratedKFoldScores trainEval k shuffledDatasets).length =
      shuffledDatasets.length * k := by
  simp only [iteratedKFoldScores, kfoldScores, List.length_flatten,
    List.map_map, Function.comp_def, List.length_map, List.length_range,
    List.map_const', List.sum_replicate, smul_eq_mul]

/-- **C7.** Every workflow call other than `model.train` — in particular
an evaluation call — leaves the model's parameters and the rest of the
workflow state (training and validation data) unchanged; only the list of
recorded scores may grow. -/
theorem evaluation_preserves_model (upd : List Int → List α → List Int)
    (ev : List Int → List α → β) (c : WorkflowCall)
    (s : WorkflowState α β) (h : c ≠ WorkflowCall.train) :
    (runCall upd ev c s).model = s.model ∧
    (runCall upd ev c s).trainingData = s.trainingData ∧
    (runCall upd ev c s).validationData = s.validationData := by
  cases c with
  | train => exact absurd rfl h
  | eval => exact ⟨rfl, rfl, rfl⟩

/-- Witness for `evaluation_preserves_model` at a concrete state and a
concrete parameter-update / evaluation function. -/
theorem evaluation_preserves_model_witness :
    (WorkflowCall.eval ≠ WorkflowCall.train) ∧
    ((runCall (fun p _ => p) (fun _ _ => (0 : Int)) WorkflowCall.eval
        (⟨⟨[1, 2]⟩, [3], [4], []⟩ : WorkflowState Nat Int)).model =
      (⟨⟨[1, 2]⟩, [3], [4], []⟩ : WorkflowState Nat Int).model ∧
     (runCall (fun p _ => p) (fun _ _ => (0 : Int)) WorkflowCall.eval
        (⟨⟨[1, 2]⟩, [3], [4], []⟩ : WorkflowState Nat Int)).trainingData =
      (⟨⟨[1, 2]⟩, [3], [4], []⟩ : WorkflowState Nat Int).trainingData ∧
     (runCall (fun p _ => p) (fun _ _ => (0 : Int)) WorkflowCall.eval
        (⟨⟨[1, 2]⟩, [3], [4], []⟩ : WorkflowState Nat Int)).validationData =
      (⟨⟨[1, 2]⟩, [3], [4], []⟩ : WorkflowState Nat Int).validationData) :=
  ⟨by decide,
    evaluation_preserves_model (fun p _ => p) (fun _ _ => (0 : Int))
      WorkflowCall.eval ⟨⟨[1, 2]⟩, [3], [4], []⟩ (by decide)⟩

/-- **C4.** For `s ≥ k`, an unpadded convolution maps spatial size `s`
to `s - (k - 1)`, a pooling stage with window `w` maps `s` to `s / w`,
and the notebook's pipeline maps a `28 × 28 × 1` input through the
successive shapes of the printed architecture table, with spatial sizes
26, 13, 11, 5 and 3. -/
theorem layer_shape_arithmetic (s k w : Nat) (hk1 : 1 ≤ k) (hk : k ≤ s) :
    convOut s k = s - (k - 1) ∧
    poolOut s w = s / w ∧
    shapesThrough (.spatial 28 28 1) convnet =
      [.spatial 28 28 1, .spatial 26 26 32, .spatial 13 13 32,
       .spatial 11 11 64, .spatial 5 5 64, .spatial 3 3 64,
       .vec 576, .vec 64, .vec 10] := by
  refine ⟨?_, rfl, rfl⟩
  unfold convOut
  omega

/-- Witness for `layer_shape_arithmetic` at `s = 28`, `k = 3`, `w = 2`. -/
theorem layer_shape_arithmetic_witness :
    ((1 : Nat) ≤ 3 ∧ 3 ≤ 28) ∧
    (convOut 28 3 = 28 - (3 - 1) ∧
     poolOut 28 2 = 28 / 2 ∧
     shapesThrough (.spatial 28 28 1) convnet =
       [.spatial 28 28 1, .spatial 26 26 32, .spatial 13 13 32,
        .spatial 11 11 64, .spatial 5 5 64, .spatial 3 3 64,
        .vec 576, .vec 64, .vec 10]) :=
  ⟨by decide, layer_shape_arithmetic 28 3 2 (by decide) (by decide)⟩

/-- **C10.** The printed `model.summary()` parameter counts follow from
the layer arithmetic: the three Conv2D layers have 320, 18496 and 36928
parameters, `Flatten` outputs `3*3*64 = 576` units, `Dense(64)` has
36928 and `Dense(10)` has 650 parameters, and the total is 93,322. -/
theorem convnet_parameter_counts :
    paramCounts (.spatial 28 28 1) convnet =
      [320, 0, 18496, 0, 36928, 0, 36928, 650] ∧
    applyLayer (Shape.spatial 3 3 64) Layer.flatten = Shape.vec 576 ∧
    (3 * 3 * 64 = 576 ∧ 576 * 64 + 64 = 36928 ∧ 64 * 10 + 10 = 650) ∧
    totalParams (.spatial 28 28 1) convnet = 93322 := by
  exact ⟨rfl, rfl, ⟨rfl, rfl, rfl⟩, rfl⟩

end DLWP
